import Mathlib

/-!
Verification of the gin + mongo user CRUD service (src/main.go).

The four HTTP handlers (createUser, getUser, updateUser, deleteUser) are
embedded as pure functions.  Each handler takes the pieces of the request it
reads (the path parameter string, the JSON-bind outcome) together with the
result the mongo collection call would return, and produces a `HandlerRun`:
the HTTP response written (none when the handler dies on the failed type
assertion before writing one), the list of collection calls it performed, and
how many times the deferred span.End ran.

A concrete document-store model `MongoDB` (association list of users plus an
injectable failure) supplies the collection-call results for the relational
claims (create-then-read, update-then-read); the `run...` wrappers thread the
store state through a handler invocation exactly as the Go code does.
-/

namespace GinMongo

/-- A mongo ObjectID: 12 bytes, as in the driver primitive type. -/
abbrev ObjectID := List Nat

/-- The zero ObjectID, the Go zero value of the User.ID field. -/
def zeroOID : ObjectID := List.replicate 12 0

/-- Value of a single hex digit character, as accepted by hex.Decode. -/
def hexDigitVal (c : Char) : Option Nat :=
  if '0' ≤ c ∧ c ≤ '9' then some (c.toNat - '0'.toNat)
  else if 'a' ≤ c ∧ c ≤ 'f' then some (c.toNat - 'a'.toNat + 10)
  else if 'A' ≤ c ∧ c ≤ 'F' then some (c.toNat - 'A'.toNat + 10)
  else none

/-- hex.Decode on a character list: consumes pairs of hex digits. -/
def hexDecode : List Char → Option (List Nat)
  | [] => some []
  | [_] => none
  | c1 :: c2 :: rest =>
    match hexDigitVal c1, hexDigitVal c2, hexDecode rest with
    | some h, some l, some bs => some ((16 * h + l) :: bs)
    | _, _, _ => none

/-- Lower-case hex digit character for a value below 16. -/
def hexDigitChar (n : Nat) : Char :=
  if n < 10 then Char.ofNat (48 + n) else Char.ofNat (97 + (n - 10))

/-- Two hex digits of one byte. -/
def byteToHex (b : Nat) : List Char := [hexDigitChar (b / 16), hexDigitChar (b % 16)]

/-- ObjectID.Hex: the 24-character lower-case hex form of the 12 bytes. -/
def oidHex (oid : ObjectID) : String := String.mk ((oid.map byteToHex).flatten)

/-- primitive.ObjectIDFromHex: requires exactly 24 characters, all hex digits. -/
def objectIDFromHex (s : String) : Option ObjectID :=
  if s.length = 24 then hexDecode s.data else none

/-- The User record of src/main.go: ID (bson _id, omitempty), Name, Email. -/
structure User where
  ID : ObjectID
  Name : String
  Email : String
deriving DecidableEq

/-- The JSON wire form of a User: id rendered as the hex string. -/
structure UserJson where
  id : String
  name : String
  email : String
deriving DecidableEq

/-- JSON serialization of a User record. -/
def User.toJson (u : User) : UserJson := ⟨oidHex u.ID, u.Name, u.Email⟩

/-- A JSON response body: a full user, a {message: _} object, or an
{error: _} object with a single error string field. -/
inductive Body where
  | userBody (u : UserJson)
  | messageBody (message : String)
  | errorBody (error : String)
deriving DecidableEq

/-- An HTTP response: status code and JSON body. -/
structure Response where
  status : Nat
  body : Body
deriving DecidableEq

/-- The dynamic type of result.InsertedID (a Go interface value): an ObjectID
or some other bson value. -/
inductive BsonValue where
  | objectID (oid : ObjectID)
  | other (description : String)
deriving DecidableEq

/-- Result of collection.FindOne(...).Decode: a decoded user, the
distinguished mongo.ErrNoDocuments, or another error. -/
inductive FindResult where
  | found (u : User)
  | noDocuments
  | storeError (e : String)
deriving DecidableEq

/-- Result of collection.InsertOne: the InsertedID, or an error. -/
inductive InsertResult where
  | ok (insertedID : BsonValue)
  | storeError (e : String)
deriving DecidableEq

/-- Result of collection.UpdateOne: the MatchedCount, or an error. -/
inductive UpdateResult where
  | ok (matchedCount : Nat)
  | storeError (e : String)
deriving DecidableEq

/-- Result of collection.DeleteOne: the DeletedCount, or an error. -/
inductive DeleteResult where
  | ok (deletedCount : Nat)
  | storeError (e : String)
deriving DecidableEq

/-- A call made on the mongo collection, with its arguments. -/
inductive StoreCall where
  | insertOne (doc : User)
  | findOne (id : ObjectID)
  | updateOne (id : ObjectID) (name email : String)
  | deleteOne (id : ObjectID)
deriving DecidableEq

/-- One handler invocation: the response written (none when the handler
aborts on the failed InsertedID type assertion before writing), the
collection calls performed, and the number of times the deferred span.End
ran (the defer fires on every exit, normal or aborted). -/
structure HandlerRun where
  response : Option Response
  calls : List StoreCall
  spanEnds : Nat
deriving DecidableEq

/-- createUser (src/main.go lines 125-148): bind JSON (400 on failure, no
store call); InsertOne (500 on error); type-assert InsertedID to ObjectID
(abort on failure); else 201 with the user carrying the assigned id. -/
def createUser (bindResult : Except String User) (insertRes : InsertResult) : HandlerRun :=
  match bindResult with
  | .error msg =>
    { response := some ⟨400, Body.errorBody msg⟩, calls := [], spanEnds := 1 }
  | .ok user =>
    match insertRes with
    | .storeError _ =>
      { response := some ⟨500, Body.errorBody "Failed to create user"⟩
        calls := [StoreCall.insertOne user], spanEnds := 1 }
    | .ok insertedID =>
      match insertedID with
      | .objectID oid =>
        { response := some ⟨201, Body.userBody ⟨oidHex oid, user.Name, user.Email⟩⟩
          calls := [StoreCall.insertOne user], spanEnds := 1 }
      | .other _ =>
        { response := none, calls := [StoreCall.insertOne user], spanEnds := 1 }

/-- getUser (src/main.go lines 150-178): parse id (400 on failure, no store
call); FindOne; ErrNoDocuments maps to 404, any other error to 500, a
decoded user to 200 with the full record. -/
def getUser (idParam : String) (findRes : FindResult) : HandlerRun :=
  match objectIDFromHex idParam with
  | none =>
    { response := some ⟨400, Body.errorBody "Invalid user ID"⟩, calls := [], spanEnds := 1 }
  | some id =>
    match findRes with
    | .found u =>
      { response := some ⟨200, Body.userBody u.toJson⟩
        calls := [StoreCall.findOne id], spanEnds := 1 }
    | .noDocuments =>
      { response := some ⟨404, Body.errorBody "User not found"⟩
        calls := [StoreCall.findOne id], spanEnds := 1 }
    | .storeError _ =>
      { response := some ⟨500, Body.errorBody "Failed to get user"⟩
        calls := [StoreCall.findOne id], spanEnds := 1 }

/-- updateUser (src/main.go lines 180-222): parse id (400, no store call);
bind JSON (400, no store call); UpdateOne with a $set of name and email
(500 on error); MatchedCount zero maps to 404, positive to 200. -/
def updateUser (idParam : String) (bindResult : Except String User)
    (updateRes : UpdateResult) : HandlerRun :=
  match objectIDFromHex idParam with
  | none =>
    { response := some ⟨400, Body.errorBody "Invalid user ID"⟩, calls := [], spanEnds := 1 }
  | some id =>
    match bindResult with
    | .error msg =>
      { response := some ⟨400, Body.errorBody msg⟩, calls := [], spanEnds := 1 }
    | .ok user =>
      match updateRes with
      | .storeError _ =>
        { response := some ⟨500, Body.errorBody "Failed to update user"⟩
          calls := [StoreCall.updateOne id user.Name user.Email], spanEnds := 1 }
      | .ok matchedCount =>
        if matchedCount = 0 then
          { response := some ⟨404, Body.errorBody "User not found"⟩
            calls := [StoreCall.updateOne id user.Name user.Email], spanEnds := 1 }
        else
          { response := some ⟨200, Body.messageBody "User updated successfully"⟩
            calls := [StoreCall.updateOne id user.Name user.Email], spanEnds := 1 }

/-- deleteUser (src/main.go lines 224-252): parse id (400, no store call);
DeleteOne (500 on error); DeletedCount zero maps to 404, positive to 200. -/
def deleteUser (idParam : String) (deleteRes : DeleteResult) : HandlerRun :=
  match objectIDFromHex idParam with
  | none =>
    { response := some ⟨400, Body.errorBody "Invalid user ID"⟩, calls := [], spanEnds := 1 }
  | some id =>
    match deleteRes with
    | .storeError _ =>
      { response := some ⟨500, Body.errorBody "Failed to delete user"⟩
        calls := [StoreCall.deleteOne id], spanEnds := 1 }
    | .ok deletedCount =>
      if deletedCount = 0 then
        { response := some ⟨404, Body.errorBody "User not found"⟩
          calls := [StoreCall.deleteOne id], spanEnds := 1 }
      else
        { response := some ⟨200, Body.messageBody "User deleted successfully"⟩
          calls := [StoreCall.deleteOne id], spanEnds := 1 }

/-- The document store: the users collection as an association list keyed by
the records ID field, plus an injectable failure making every call error. -/
structure MongoDB where
  docs : List User
  failure : Option String
deriving DecidableEq

/-- FindOne on the filter by _id. -/
def MongoDB.findOneRes (db : MongoDB) (id : ObjectID) : FindResult :=
  match db.failure with
  | some e => .storeError e
  | none =>
    match db.docs.find? (fun u => u.ID == id) with
    | some u => .found u
    | none => .noDocuments

/-- InsertOne: bson omitempty drops a zero _id and the driver then generates
the id (genId); a nonzero _id on the document is used as is; a duplicate
_id is a store error. -/
def MongoDB.insertOne (db : MongoDB) (u : User) (genId : ObjectID) :
    InsertResult × MongoDB :=
  match db.failure with
  | some e => (.storeError e, db)
  | none =>
    let iid := if u.ID = zeroOID then genId else u.ID
    if (db.docs.find? (fun d => d.ID == iid)).isSome then
      (.storeError "duplicate key", db)
    else
      (.ok (BsonValue.objectID iid),
       { db with docs := db.docs ++ [⟨iid, u.Name, u.Email⟩] })

/-- $set of name and email on the first record matching the id; the ID field
of the record is untouched. -/
def updateFirst (id : ObjectID) (name email : String) : List User → List User
  | [] => []
  | u :: rest =>
    if u.ID == id then { u with Name := name, Email := email } :: rest
    else u :: updateFirst id name email rest

/-- UpdateOne on the filter by _id with the $set document. -/
def MongoDB.updateOne (db : MongoDB) (id : ObjectID) (name email : String) :
    UpdateResult × MongoDB :=
  match db.failure with
  | some e => (.storeError e, db)
  | none =>
    match db.docs.find? (fun u => u.ID == id) with
    | some _ => (.ok 1, { db with docs := updateFirst id name email db.docs })
    | none => (.ok 0, db)

/-- DeleteOne on the filter by _id: removes the first match. -/
def MongoDB.deleteOne (db : MongoDB) (id : ObjectID) : DeleteResult × MongoDB :=
  match db.failure with
  | some e => (.storeError e, db)
  | none =>
    match db.docs.find? (fun u => u.ID == id) with
    | some _ => (.ok 1, { db with docs := db.docs.eraseP (fun u => u.ID == id) })
    | none => (.ok 0, db)

/-- createUser run against the store: the insert happens only when the JSON
bind succeeded. -/
def runCreate (db : MongoDB) (genId : ObjectID) (bindResult : Except String User) :
    HandlerRun × MongoDB :=
  match bindResult with
  | .error msg => (createUser (.error msg) (.ok (BsonValue.objectID zeroOID)), db)
  | .ok user =>
    let res := db.insertOne user genId
    (createUser (.ok user) res.1, res.2)

/-- getUser run against the store: the find happens only when the id parsed. -/
def runGet (db : MongoDB) (idParam : String) : HandlerRun :=
  match objectIDFromHex idParam with
  | none => getUser idParam FindResult.noDocuments
  | some id => getUser idParam (db.findOneRes id)

/-- updateUser run against the store: the update happens only when the id
parsed and the JSON bind succeeded. -/
def runUpdate (db : MongoDB) (idParam : String) (bindResult : Except String User) :
    HandlerRun × MongoDB :=
  match objectIDFromHex idParam with
  | none => (updateUser idParam bindResult (.ok 0), db)
  | some id =>
    match bindResult with
    | .error msg => (updateUser idParam (.error msg) (.ok 0), db)
    | .ok user =>
      let res := db.updateOne id user.Name user.Email
      (updateUser idParam (.ok user) res.1, res.2)

/-- deleteUser run against the store: the delete happens only when the id
parsed. -/
def runDelete (db : MongoDB) (idParam : String) : HandlerRun × MongoDB :=
  match objectIDFromHex idParam with
  | none => (deleteUser idParam (.ok 0), db)
  | some id =>
    let res := db.deleteOne id
    (deleteUser idParam res.1, res.2)

/-! ### Hex round-trip lemmas -/

theorem hexDigitVal_hexDigitChar : ∀ n, n < 16 → hexDigitVal (hexDigitChar n) = some n := by
  decide

theorem hexDecode_byteToHex (b : Nat) (hb : b < 256) (rest : List Char) :
    hexDecode (byteToHex b ++ rest) = (hexDecode rest).map (fun bs => b :: bs) := by
  have h1 : hexDigitVal (hexDigitChar (b / 16)) = some (b / 16) :=
    hexDigitVal_hexDigitChar _ (Nat.div_lt_of_lt_mul (by omega))
  have h2 : hexDigitVal (hexDigitChar (b % 16)) = some (b % 16) :=
    hexDigitVal_hexDigitChar _ (Nat.mod_lt _ (by omega))
  have hb2 : 16 * (b / 16) + b % 16 = b := Nat.div_add_mod b 16
  rw [show byteToHex b ++ rest = hexDigitChar (b / 16) :: hexDigitChar (b % 16) :: rest from rfl]
  rw [hexDecode, h1, h2]
  cases h3 : hexDecode rest with
  | none => simp
  | some bs => simp [hb2]

theorem hexDecode_flatten (oid : List Nat) (hb : ∀ b ∈ oid, b < 256) :
    hexDecode ((oid.map byteToHex).flatten) = some oid := by
  induction oid with
  | nil => rfl
  | cons b tl ih =>
    have hb0 : b < 256 := hb b (by simp)
    have htl : ∀ x ∈ tl, x < 256 := fun x hx => hb x (by simp [hx])
    simp only [List.map_cons, List.flatten_cons]
    rw [hexDecode_byteToHex b hb0, ih htl]
    rfl

theorem flatten_byteToHex_length (oid : List Nat) :
    ((oid.map byteToHex).flatten).length = 2 * oid.length := by
  induction oid with
  | nil => rfl
  | cons b tl ih =>
    simp only [List.map_cons, List.flatten_cons, List.length_append, ih, byteToHex]
    simp
    omega

theorem oidHex_length (oid : ObjectID) : (oidHex oid).length = 2 * oid.length :=
  flatten_byteToHex_length oid

theorem objectIDFromHex_oidHex (oid : ObjectID) (h12 : oid.length = 12)
    (hb : ∀ b ∈ oid, b < 256) : objectIDFromHex (oidHex oid) = some oid := by
  unfold objectIDFromHex
  rw [if_pos (by rw [oidHex_length, h12])]
  exact hexDecode_flatten oid hb

theorem oidHex_ne_empty (oid : ObjectID) (h12 : oid.length = 12) : oidHex oid ≠ "" := by
  intro h
  have h24 : (oidHex oid).length = 24 := by rw [oidHex_length, h12]
  rw [h] at h24
  exact absurd h24 (by decide)

/-! ### Claim theorems: handler-level status mapping -/

/-- C1: for every syntactically invalid identifier string in the path, each of
GET, PUT and DELETE /users/:id responds 400 Bad Request with the fixed
message and performs no store call: the parse-failure exit precedes every
store operation. -/
theorem c1_invalid_id_rejected_before_store (idParam : String)
    (h : objectIDFromHex idParam = none) (fr : FindResult)
    (br : Except String User) (ur : UpdateResult) (dr : DeleteResult) :
    ((getUser idParam fr).response = some ⟨400, Body.errorBody "Invalid user ID"⟩
      ∧ (getUser idParam fr).calls = [])
    ∧ ((updateUser idParam br ur).response = some ⟨400, Body.errorBody "Invalid user ID"⟩
      ∧ (updateUser idParam br ur).calls = [])
    ∧ ((deleteUser idParam dr).response = some ⟨400, Body.errorBody "Invalid user ID"⟩
      ∧ (deleteUser idParam dr).calls = []) := by
  refine ⟨⟨?_, ?_⟩, ⟨?_, ?_⟩, ⟨?_, ?_⟩⟩ <;> simp [getUser, updateUser, deleteUser, h]

/-- Witness for C1 at the concrete invalid identifier string "zz". -/
theorem c1_witness :
    objectIDFromHex "zz" = none ∧
    (((getUser "zz" FindResult.noDocuments).response
        = some ⟨400, Body.errorBody "Invalid user ID"⟩
      ∧ (getUser "zz" FindResult.noDocuments).calls = [])
    ∧ ((updateUser "zz" (Except.error "bad") (UpdateResult.ok 0)).response
        = some ⟨400, Body.errorBody "Invalid user ID"⟩
      ∧ (updateUser "zz" (Except.error "bad") (UpdateResult.ok 0)).calls = [])
    ∧ ((deleteUser "zz" (DeleteResult.ok 0)).response
        = some ⟨400, Body.errorBody "Invalid user ID"⟩
      ∧ (deleteUser "zz" (DeleteResult.ok 0)).calls = [])) :=
  ⟨by decide,
   c1_invalid_id_rejected_before_store "zz" (by decide) FindResult.noDocuments
     (Except.error "bad") (UpdateResult.ok 0) (DeleteResult.ok 0)⟩

/-- C2: on get with a well-formed id, the distinguished no-documents lookup
result maps to 404 {error: User not found}, and every other lookup error maps
to 500 {error: Failed to get user}; the two outcomes are never conflated. -/
theorem c2_get_notfound_distinct_from_failure (idParam : String) (id : ObjectID)
    (h : objectIDFromHex idParam = some id) :
    (getUser idParam FindResult.noDocuments).response
        = some ⟨404, Body.errorBody "User not found"⟩
    ∧ ∀ e, (getUser idParam (FindResult.storeError e)).response
        = some ⟨500, Body.errorBody "Failed to get user"⟩ := by
  exact ⟨by simp [getUser, h], fun e => by simp [getUser, h]⟩

/-- Witness for C2 at a concrete well-formed identifier. -/
theorem c2_witness :
    objectIDFromHex "507f1f77bcf86cd799439011"
        = some [80, 127, 31, 119, 188, 248, 108, 215, 153, 67, 144, 17]
    ∧ (getUser "507f1f77bcf86cd799439011" FindResult.noDocuments).response
        = some ⟨404, Body.errorBody "User not found"⟩
    ∧ (getUser "507f1f77bcf86cd799439011" (FindResult.storeError "boom")).response
        = some ⟨500, Body.errorBody "Failed to get user"⟩ :=
  ⟨by decide,
   (c2_get_notfound_distinct_from_failure "507f1f77bcf86cd799439011"
     [80, 127, 31, 119, 188, 248, 108, 215, 153, 67, 144, 17] (by decide)).1,
   (c2_get_notfound_distinct_from_failure "507f1f77bcf86cd799439011"
     [80, 127, 31, 119, 188, 248, 108, 215, 153, 67, 144, 17] (by decide)).2 "boom"⟩

/-- C3: on update and delete with a well-formed id, a zero matched or deleted
count maps to 404 {error: User not found}, a positive count to 200 with the
respective success message, and a store error to 500 with the respective
failure message. -/
theorem c3_update_delete_count_mapping (idParam : String) (id : ObjectID)
    (h : objectIDFromHex idParam = some id) (user : User) :
    ((updateUser idParam (Except.ok user) (UpdateResult.ok 0)).response
        = some ⟨404, Body.errorBody "User not found"⟩)
    ∧ (∀ n, 0 < n → (updateUser idParam (Except.ok user) (UpdateResult.ok n)).response
        = some ⟨200, Body.messageBody "User updated successfully"⟩)
    ∧ (∀ e, (updateUser idParam (Except.ok user) (UpdateResult.storeError e)).response
        = some ⟨500, Body.errorBody "Failed to update user"⟩)
    ∧ ((deleteUser idParam (DeleteResult.ok 0)).response
        = some ⟨404, Body.errorBody "User not found"⟩)
    ∧ (∀ n, 0 < n → (deleteUser idParam (DeleteResult.ok n)).response
        = some ⟨200, Body.messageBody "User deleted successfully"⟩)
    ∧ (∀ e, (deleteUser idParam (DeleteResult.storeError e)).response
        = some ⟨500, Body.errorBody "Failed to delete user"⟩) := by
  refine ⟨?_, ?_, ?_, ?_, ?_, ?_⟩
  · simp [updateUser, h]
  · intro n hn
    have hn0 : n ≠ 0 := by omega
    simp [updateUser, h, hn0]
  · intro e; simp [updateUser, h]
  · simp [deleteUser, h]
  · intro n hn
    have hn0 : n ≠ 0 := by omega
    simp [deleteUser, h, hn0]
  · intro e; simp [deleteUser, h]

/-- Witness for C3 at a concrete well-formed identifier and counts 0 and 1. -/
theorem c3_witness :
    objectIDFromHex "507f1f77bcf86cd799439011"
        = some [80, 127, 31, 119, 188, 248, 108, 215, 153, 67, 144, 17]
    ∧ (updateUser "507f1f77bcf86cd799439011" (Except.ok ⟨zeroOID, "n", "e"⟩)
        (UpdateResult.ok 0)).response = some ⟨404, Body.errorBody "User not found"⟩
    ∧ (0 < 1
      ∧ (deleteUser "507f1f77bcf86cd799439011" (DeleteResult.ok 1)).response
        = some ⟨200, Body.messageBody "User deleted successfully"⟩) :=
  ⟨by decide,
   (c3_update_delete_count_mapping "507f1f77bcf86cd799439011"
     [80, 127, 31, 119, 188, 248, 108, 215, 153, 67, 144, 17] (by decide)
     ⟨zeroOID, "n", "e"⟩).1,
   by decide,
   (c3_update_delete_count_mapping "507f1f77bcf86cd799439011"
     [80, 127, 31, 119, 188, 248, 108, 215, 153, 67, 144, 17] (by decide)
     ⟨zeroOID, "n", "e"⟩).2.2.2.2.1 1 (by decide)⟩

/-- C7: a JSON body that fails to bind on POST or PUT yields 400 with an
error-message body, no store call is made, and the store state is unchanged. -/
theorem c7_bad_body_no_mutation (msg : String) (ins : InsertResult)
    (idParam : String) (ur : UpdateResult) (db : MongoDB) (genId : ObjectID) :
    ((createUser (Except.error msg) ins).response = some ⟨400, Body.errorBody msg⟩
      ∧ (createUser (Except.error msg) ins).calls = [])
    ∧ ((∃ e, (updateUser idParam (Except.error msg) ur).response
          = some ⟨400, Body.errorBody e⟩)
      ∧ (updateUser idParam (Except.error msg) ur).calls = [])
    ∧ (runCreate db genId (Except.error msg)).2 = db
    ∧ (runUpdate db idParam (Except.error msg)).2 = db := by
  refine ⟨⟨rfl, rfl⟩, ?_, rfl, ?_⟩
  · cases h : objectIDFromHex idParam with
    | none => exact ⟨⟨"Invalid user ID", by simp [updateUser, h]⟩, by simp [updateUser, h]⟩
    | some id => exact ⟨⟨msg, by simp [updateUser, h]⟩, by simp [updateUser, h]⟩
  · cases h : objectIDFromHex idParam with
    | none => simp [runUpdate, h]
    | some id => simp [runUpdate, h]

/-- C9: the span opened at handler entry is ended exactly once on every exit
path of each of the four handlers, the aborted assertion path included. -/
theorem c9_span_closed_exactly_once (bindC bindU : Except String User)
    (ins : InsertResult) (idG idU idD : String) (fr : FindResult)
    (ur : UpdateResult) (dr : DeleteResult) :
    (createUser bindC ins).spanEnds = 1 ∧ (getUser idG fr).spanEnds = 1
    ∧ (updateUser idU bindU ur).spanEnds = 1 ∧ (deleteUser idD dr).spanEnds = 1 := by
  refine ⟨?_, ?_, ?_, ?_⟩
  · cases bindC with
    | error msg => rfl
    | ok u =>
      cases ins with
      | storeError e => rfl
      | ok v => cases v <;> rfl
  · cases h : objectIDFromHex idG with
    | none => simp [getUser, h]
    | some id => cases fr <;> simp [getUser, h]
  · cases h : objectIDFromHex idU with
    | none => simp [updateUser, h]
    | some id =>
      cases bindU with
      | error msg => simp [updateUser, h]
      | ok u =>
        cases ur with
        | storeError e => simp [updateUser, h]
        | ok n =>
          by_cases hn : n = 0 <;> simp [updateUser, h, hn]
  · cases h : objectIDFromHex idD with
    | none => simp [deleteUser, h]
    | some id =>
      cases dr with
      | storeError e => simp [deleteUser, h]
      | ok n =>
        by_cases hn : n = 0 <;> simp [deleteUser, h, hn]

/-- C10: after a successful insert the handler type-asserts the InsertedID to
an ObjectID; when every successful insert carries an ObjectID InsertedID the
abort branch is unreachable, the handler always writes a response, and on the
ObjectID result it is the 201 response; the concrete store model indeed only
returns ObjectID inserted ids. -/
theorem c10_inserted_id_assertion_safe (user : User) (insertRes : InsertResult)
    (hins : ∀ v, insertRes = InsertResult.ok v → ∃ o, v = BsonValue.objectID o) :
    (∀ oid, insertRes = InsertResult.ok (BsonValue.objectID oid) →
      (createUser (Except.ok user) insertRes).response
        = some ⟨201, Body.userBody ⟨oidHex oid, user.Name, user.Email⟩⟩)
    ∧ (createUser (Except.ok user) insertRes).response ≠ none
    ∧ (∀ (db : MongoDB) (u : User) (genId : ObjectID) (v : BsonValue),
        (db.insertOne u genId).1 = InsertResult.ok v → ∃ o, v = BsonValue.objectID o) := by
  refine ⟨?_, ?_, ?_⟩
  · intro oid hr
    subst hr
    rfl
  · cases insertRes with
    | storeError e => simp [createUser]
    | ok v =>
      obtain ⟨o, ho⟩ := hins v rfl
      subst ho
      simp [createUser]
  · intro db u genId v hv
    cases hf : db.failure with
    | some e => simp [MongoDB.insertOne, hf] at hv
    | none =>
      simp only [MongoDB.insertOne, hf] at hv
      split at hv
      · split at hv
        · simp at hv
        · simp at hv
          exact ⟨_, hv.symm⟩
      · split at hv
        · simp at hv
        · simp at hv
          exact ⟨_, hv.symm⟩

/-- Witness for C10 at a concrete user and ObjectID insert result. -/
theorem c10_witness :
    (createUser (Except.ok ⟨zeroOID, "n", "e"⟩)
        (InsertResult.ok (BsonValue.objectID zeroOID))).response
      = some ⟨201, Body.userBody ⟨oidHex zeroOID, "n", "e"⟩⟩ :=
  (c10_inserted_id_assertion_safe ⟨zeroOID, "n", "e"⟩
      (InsertResult.ok (BsonValue.objectID zeroOID))
      (fun v hv => ⟨zeroOID, by injection hv with h; exact h.symm⟩)).1 zeroOID rfl

/-- C8: every 4xx or 5xx response of every handler carries a body that is a
JSON object with a single error string field, and the 500 responses do not
depend on the content of the underlying store error (no internal detail
reaches the client). -/
theorem c8_error_responses_single_error_field (bindC bindU : Except String User)
    (ins : InsertResult) (idG idU idD : String) (fr : FindResult)
    (ur : UpdateResult) (dr : DeleteResult) :
    (∀ r, (createUser bindC ins).response = some r → 400 ≤ r.status →
        ∃ e, r.body = Body.errorBody e)
    ∧ (∀ r, (getUser idG fr).response = some r → 400 ≤ r.status →
        ∃ e, r.body = Body.errorBody e)
    ∧ (∀ r, (updateUser idU bindU ur).response = some r → 400 ≤ r.status →
        ∃ e, r.body = Body.errorBody e)
    ∧ (∀ r, (deleteUser idD dr).response = some r → 400 ≤ r.status →
        ∃ e, r.body = Body.errorBody e)
    ∧ (∀ e1 e2, (createUser bindC (InsertResult.storeError e1)).response
        = (createUser bindC (InsertResult.storeError e2)).response)
    ∧ (∀ e1 e2, (getUser idG (FindResult.storeError e1)).response
        = (getUser idG (FindResult.storeError e2)).response)
    ∧ (∀ e1 e2, (updateUser idU bindU (UpdateResult.storeError e1)).response
        = (updateUser idU bindU (UpdateResult.storeError e2)).response)
    ∧ (∀ e1 e2, (deleteUser idD (DeleteResult.storeError e1)).response
        = (deleteUser idD (DeleteResult.storeError e2)).response) := by
  refine ⟨?_, ?_, ?_, ?_, ?_, ?_, ?_, ?_⟩
  · intro r hr hs
    cases bindC with
    | error msg =>
      simp [createUser] at hr
      exact ⟨msg, by rw [← hr]⟩
    | ok u =>
      cases ins with
      | storeError e =>
        simp [createUser] at hr
        exact ⟨"Failed to create user", by rw [← hr]⟩
      | ok v =>
        cases v with
        | objectID oid =>
          simp [createUser] at hr
          rw [← hr] at hs
          simp at hs
        | other d => simp [createUser] at hr
  · intro r hr hs
    cases h : objectIDFromHex idG with
    | none =>
      simp [getUser, h] at hr
      exact ⟨"Invalid user ID", by rw [← hr]⟩
    | some id =>
      cases fr with
      | found u =>
        simp [getUser, h] at hr
        rw [← hr] at hs
        simp at hs
      | noDocuments =>
        simp [getUser, h] at hr
        exact ⟨"User not found", by rw [← hr]⟩
      | storeError e =>
        simp [getUser, h] at hr
        exact ⟨"Failed to get user", by rw [← hr]⟩
  · intro r hr hs
    cases h : objectIDFromHex idU with
    | none =>
      simp [updateUser, h] at hr
      exact ⟨"Invalid user ID", by rw [← hr]⟩
    | some id =>
      cases bindU with
      | error msg =>
        simp [updateUser, h] at hr
        exact ⟨msg, by rw [← hr]⟩
      | ok u =>
        cases ur with
        | storeError e =>
          simp [updateUser, h] at hr
          exact ⟨"Failed to update user", by rw [← hr]⟩
        | ok n =>
          by_cases hn : n = 0
          · simp [updateUser, h, hn] at hr
            exact ⟨"User not found", by rw [← hr]⟩
          · simp [updateUser, h, hn] at hr
            rw [← hr] at hs
            simp at hs
  · intro r hr hs
    cases h : objectIDFromHex idD with
    | none =>
      simp [deleteUser, h] at hr
      exact ⟨"Invalid user ID", by rw [← hr]⟩
    | some id =>
      cases dr with
      | storeError e =>
        simp [deleteUser, h] at hr
        exact ⟨"Failed to delete user", by rw [← hr]⟩
      | ok n =>
        by_cases hn : n = 0
        · simp [deleteUser, h, hn] at hr
          exact ⟨"User not found", by rw [← hr]⟩
        · simp [deleteUser, h, hn] at hr
          rw [← hr] at hs
          simp at hs
  · intro e1 e2
    cases bindC <;> rfl
  · intro e1 e2
    cases h : objectIDFromHex idG <;> simp [getUser, h]
  · intro e1 e2
    cases h : objectIDFromHex idU with
    | none => rfl
    | some id => cases bindU <;> simp [updateUser, h]
  · intro e1 e2
    cases h : objectIDFromHex idD <;> simp [deleteUser, h]

/-- Witness for C8 at a concrete 400 response of getUser. -/
theorem c8_witness :
    (getUser "zz" FindResult.noDocuments).response
        = some ⟨400, Body.errorBody "Invalid user ID"⟩
    ∧ 400 ≤ (400 : Nat)
    ∧ ∃ e, (Response.mk 400 (Body.errorBody "Invalid user ID")).body = Body.errorBody e :=
  ⟨by decide, by decide,
   (c8_error_responses_single_error_field (Except.error "x") (Except.error "x")
       (InsertResult.ok (BsonValue.objectID zeroOID)) "zz" "zz" "zz"
       FindResult.noDocuments (UpdateResult.ok 0) (DeleteResult.ok 0)).2.1
     ⟨400, Body.errorBody "Invalid user ID"⟩ (by decide) (by decide)⟩

/-! ### Store model lemmas -/

theorem insertOne_fresh (db : MongoDB) (name email : String) (genId : ObjectID)
    (hfail : db.failure = none)
    (hfresh : db.docs.find? (fun u => u.ID == genId) = none) :
    db.insertOne ⟨zeroOID, name, email⟩ genId
      = (InsertResult.ok (BsonValue.objectID genId),
         { db with docs := db.docs ++ [⟨genId, name, email⟩] }) := by
  simp [MongoDB.insertOne, hfail, hfresh]

theorem find?_updateFirst (id : ObjectID) (name email : String) :
    ∀ (l : List User) (u0 : User), l.find? (fun u => u.ID == id) = some u0 →
      (updateFirst id name email l).find? (fun u => u.ID == id)
        = some ⟨u0.ID, name, email⟩ := by
  intro l
  induction l with
  | nil => intro u0 h; simp at h
  | cons a t ih =>
    intro u0 h
    by_cases ha : a.ID = id
    · rw [List.find?_cons_of_pos _ (by simp [ha])] at h
      injection h with h
      subst h
      simp [updateFirst, ha]
    · rw [List.find?_cons_of_neg _ (by simp [ha])] at h
      simp only [updateFirst]
      rw [if_neg (by simp [ha])]
      rw [List.find?_cons_of_neg _ (by simp [ha])]
      exact ih u0 h

theorem updateFirst_map_id (id : ObjectID) (name email : String) (l : List User) :
    (updateFirst id name email l).map User.ID = l.map User.ID := by
  induction l with
  | nil => rfl
  | cons a t ih =>
    by_cases ha : a.ID = id
    · simp [updateFirst, ha]
    · simp only [updateFirst]
      rw [if_neg (by simp [ha])]
      simp [ih]

/-! ### Claim theorems: relational properties over the store -/

/-- C4: for every valid {name, email} payload, create returns 201 with a
non-empty assigned id, and a subsequent get with that id returns a user with
exactly the posted name and email. -/
theorem c4_create_then_get_roundtrip (db : MongoDB) (genId : ObjectID)
    (name email : String) (hfail : db.failure = none)
    (h12 : genId.length = 12) (hb : ∀ b ∈ genId, b < 256)
    (hfresh : db.docs.find? (fun u => u.ID == genId) = none) :
    ((runCreate db genId (Except.ok ⟨zeroOID, name, email⟩)).1.response
        = some ⟨201, Body.userBody ⟨oidHex genId, name, email⟩⟩)
    ∧ oidHex genId ≠ ""
    ∧ (runGet (runCreate db genId (Except.ok ⟨zeroOID, name, email⟩)).2
        (oidHex genId)).response
        = some ⟨200, Body.userBody ⟨oidHex genId, name, email⟩⟩ := by
  have hins := insertOne_fresh db name email genId hfail hfresh
  have hparse := objectIDFromHex_oidHex genId h12 hb
  refine ⟨?_, oidHex_ne_empty genId h12, ?_⟩
  · simp [runCreate, hins, createUser]
  · simp only [runCreate, hins]
    simp only [runGet, hparse]
    have hfind : ({ db with docs := db.docs ++ [⟨genId, name, email⟩] } : MongoDB).findOneRes genId
        = FindResult.found ⟨genId, name, email⟩ := by
      simp [MongoDB.findOneRes, hfail, List.find?_append, hfresh]
    rw [hfind]
    simp [getUser, hparse, User.toJson]

/-- Witness for C4: create then get on an initially empty store. -/
theorem c4_witness :
    (⟨[], none⟩ : MongoDB).failure = none
    ∧ zeroOID.length = 12
    ∧ (((runCreate ⟨[], none⟩ zeroOID (Except.ok ⟨zeroOID, "Alice", "a@x"⟩)).1.response
        = some ⟨201, Body.userBody ⟨oidHex zeroOID, "Alice", "a@x"⟩⟩)
      ∧ oidHex zeroOID ≠ ""
      ∧ (runGet (runCreate ⟨[], none⟩ zeroOID (Except.ok ⟨zeroOID, "Alice", "a@x"⟩)).2
          (oidHex zeroOID)).response
        = some ⟨200, Body.userBody ⟨oidHex zeroOID, "Alice", "a@x"⟩⟩) :=
  ⟨rfl, by decide,
   c4_create_then_get_roundtrip ⟨[], none⟩ zeroOID "Alice" "a@x" rfl (by decide)
     (by decide) rfl⟩

/-- C5: update is a full replace of the two mutable fields: updating an
existing id with name A and email B and then getting the same id returns
exactly that id with name A and email B, both fields overwritten. -/
theorem c5_update_full_replace (db : MongoDB) (id : ObjectID) (u0 : User)
    (A B : String) (hfail : db.failure = none)
    (h12 : id.length = 12) (hb : ∀ b ∈ id, b < 256)
    (hfind : db.docs.find? (fun u => u.ID == id) = some u0) :
    ((runUpdate db (oidHex id) (Except.ok ⟨zeroOID, A, B⟩)).1.response
        = some ⟨200, Body.messageBody "User updated successfully"⟩)
    ∧ ((runGet (runUpdate db (oidHex id) (Except.ok ⟨zeroOID, A, B⟩)).2
        (oidHex id)).response
        = some ⟨200, Body.userBody ⟨oidHex id, A, B⟩⟩) := by
  have hparse := objectIDFromHex_oidHex id h12 hb
  have hupd : db.updateOne id A B
      = (UpdateResult.ok 1, { db with docs := updateFirst id A B db.docs }) := by
    simp [MongoDB.updateOne, hfail, hfind]
  have hid : u0.ID = id := by
    have := List.find?_some hfind
    simpa using this
  constructor
  · simp [runUpdate, hparse, hupd, updateUser]
  · simp only [runUpdate, hparse, hupd]
    simp only [runGet, hparse]
    have hfound : ({ db with docs := updateFirst id A B db.docs } : MongoDB).findOneRes id
        = FindResult.found ⟨u0.ID, A, B⟩ := by
      simp [MongoDB.findOneRes, hfail, find?_updateFirst id A B db.docs u0 hfind]
    rw [hfound]
    simp [getUser, hparse, User.toJson, hid]

/-- Witness for C5: replace the single record of a one-record store. -/
theorem c5_witness :
    (⟨[⟨zeroOID, "old", "o@x"⟩], none⟩ : MongoDB).docs.find?
        (fun u => u.ID == zeroOID) = some ⟨zeroOID, "old", "o@x"⟩
    ∧ (((runUpdate ⟨[⟨zeroOID, "old", "o@x"⟩], none⟩ (oidHex zeroOID)
          (Except.ok ⟨zeroOID, "A", "b@x.com"⟩)).1.response
        = some ⟨200, Body.messageBody "User updated successfully"⟩)
      ∧ ((runGet (runUpdate ⟨[⟨zeroOID, "old", "o@x"⟩], none⟩ (oidHex zeroOID)
            (Except.ok ⟨zeroOID, "A", "b@x.com"⟩)).2 (oidHex zeroOID)).response
        = some ⟨200, Body.userBody ⟨oidHex zeroOID, "A", "b@x.com"⟩⟩)) :=
  ⟨by decide,
   c5_update_full_replace ⟨[⟨zeroOID, "old", "o@x"⟩], none⟩ zeroOID
     ⟨zeroOID, "old", "o@x"⟩ "A" "b@x.com" rfl (by decide) (by decide) (by decide)⟩

/-- C6 counterexample: a POST payload that carries a nonzero id is inserted
under that client-supplied id, not under the store-generated one, and the 201
response echoes the client id; so the id is not in general generated by the
persistence layer and the inbound id does play a role in the insert. -/
theorem c6_counterexample :
    ((runCreate ⟨[], none⟩ (List.replicate 12 1)
        (Except.ok ⟨List.replicate 12 2, "n", "e"⟩)).1.response
      = some ⟨201, Body.userBody ⟨oidHex (List.replicate 12 2), "n", "e"⟩⟩)
    ∧ ((runCreate ⟨[], none⟩ (List.replicate 12 1)
        (Except.ok ⟨List.replicate 12 2, "n", "e"⟩)).2.docs
      = [⟨List.replicate 12 2, "n", "e"⟩])
    ∧ oidHex (List.replicate 12 2) ≠ oidHex (List.replicate 12 1) := by
  refine ⟨?_, ?_, ?_⟩ <;> decide

/-- C6 (amended): when the inbound POST payload carries an empty id — the
documented client contract — the stored id is the one generated at the
persistence layer, the 201 response returns exactly that id, and no update
ever changes the id of any stored record. -/
theorem c6_store_generated_id (db : MongoDB) (genId : ObjectID)
    (name email : String) (hfail : db.failure = none)
    (hfresh : db.docs.find? (fun u => u.ID == genId) = none) :
    ((runCreate db genId (Except.ok ⟨zeroOID, name, email⟩)).1.response
        = some ⟨201, Body.userBody ⟨oidHex genId, name, email⟩⟩)
    ∧ ((runCreate db genId (Except.ok ⟨zeroOID, name, email⟩)).2.docs
        = db.docs ++ [⟨genId, name, email⟩])
    ∧ (∀ (db2 : MongoDB) (idParam : String) (br : Except String User),
        (runUpdate db2 idParam br).2.docs.map User.ID = db2.docs.map User.ID) := by
  have hins := insertOne_fresh db name email genId hfail hfresh
  refine ⟨?_, ?_, ?_⟩
  · simp [runCreate, hins, createUser]
  · simp [runCreate, hins]
  · intro db2 idParam br
    cases h : objectIDFromHex idParam with
    | none => simp [runUpdate, h]
    | some id =>
      cases br with
      | error msg => simp [runUpdate, h]
      | ok u =>
        simp only [runUpdate, h]
        cases hf : db2.failure with
        | some e => simp [MongoDB.updateOne, hf]
        | none =>
          cases hfind : db2.docs.find? (fun d => d.ID == id) with
          | none => simp [MongoDB.updateOne, hf, hfind]
          | some d0 => simp [MongoDB.updateOne, hf, hfind, updateFirst_map_id]

/-- Witness for C6: create into an empty store with the zero inbound id. -/
theorem c6_witness :
    (⟨[], none⟩ : MongoDB).failure = none
    ∧ (((runCreate ⟨[], none⟩ zeroOID (Except.ok ⟨zeroOID, "n", "e"⟩)).1.response
        = some ⟨201, Body.userBody ⟨oidHex zeroOID, "n", "e"⟩⟩)) :=
  ⟨rfl, (c6_store_generated_id ⟨[], none⟩ zeroOID "n" "e" rfl rfl).1⟩

end GinMongo
